import Mathlib

/-!
Verification of the V3 arc-detection database service.

Shallow embedding of the repository's storage layer:
* `src/tools/init_db.py` — schema creation, channel-file loading,
  blob writing (`save_binary_data`), and the migration loop
  (`migrate_mat_files`).
* `src/database/operations.py` — the SQLite connection pool
  (`DatabaseConnectionPool`) and the `V3Database` repository
  operations (`load_file_data`, `update_transient_indices`,
  `update_experiment_status`, `add_rejection`, …).

Sample values are modelled as integers; the properties proved here do
not depend on the numeric carrier.  SQLite tables are modelled as
lists of rows, the blob directory as a partial map from filenames to
two-column payloads.

One source fact is load-bearing throughout: `V3Database.get_connection`
returns the `@contextmanager` object of the pool without entering it,
so only the operations written as `with self.get_connection() as conn:`
ever obtain a connection; the operations written as
`conn = self.get_connection()` raise `AttributeError` at
`conn.cursor()` before any pool interaction or SQL, and are modelled
accordingly (their SQL appears only as the dead-code branch of the
corresponding definition).
-/

namespace V3DB

/-! ## Blob store (`save_binary_data` in init_db.py, `load_file_data`
in operations.py)

The blob directory `BINARY_DATA_DIR` is modelled as a partial map
from filenames to stored payloads.  A stored payload is the
`np.column_stack([load_voltage_data, source_current_data])` result:
a list of rows, each row a (load-voltage, source-current) pair. -/

/-- The contents of the binary-data directory: filename ↦ payload. -/
def FS : Type := String → Option (List (Int × Int))

/-- Writing one file into the directory (what `np.save` does). -/
def FS.write (fs : FS) (name : String) (payload : List (Int × Int)) : FS :=
  fun n => if n = name then some payload else fs n

/-- `f"{file_id:08d}.npy"`: zero-padded 8-digit filename. -/
def binaryFilename (file_id : Nat) : String :=
  let s := toString file_id
  String.mk (List.replicate (8 - s.length) '0') ++ s ++ ".npy"

/-- `save_binary_data(load_voltage_data, source_current_data, file_id)`:
returns `None` when either channel is absent; otherwise column-stacks
the two channels (column 0 = load voltage, column 1 = source current),
writes `{file_id:08d}.npy`, and returns the filename together with the
updated directory.  (`np.column_stack` requires equal lengths; `zip`
realises the pairing on equal-length inputs.) -/
def save_binary_data (load_voltage_data source_current_data : Option (List Int))
    (file_id : Nat) (fs : FS) : Option String × FS :=
  match load_voltage_data, source_current_data with
  | some lv, some sc =>
    let combined_data := lv.zip sc
    let binary_filename := binaryFilename file_id
    (some binary_filename, fs.write binary_filename combined_data)
  | _, _ => (none, fs)

/-! ## The `files` table (schema from `create_database_schema`) -/

/-- One row of the `files` table (the columns the verified operations
touch; `voltage_level`/`current_level` are integral in practice since
they are parsed from digit tokens). -/
structure FileRow where
  file_id : Nat
  original_filename : String
  original_path : String
  original_label_directory : Option String
  selected_label : String
  transient1_index : Option Int
  transient2_index : Option Int
  transient3_index : Option Int
  voltage_level : Option Nat
  current_level : Option Nat
  datestamp : Option String
  binary_data_path : String
  data_checksum : Option String
  total_samples : Nat
  deriving Repr, DecidableEq

/-- The `files` table with its AUTOINCREMENT counter. -/
structure FilesTable where
  rows : List FileRow
  next_id : Nat
  deriving Repr, DecidableEq

/-- `UNIQUE(original_path, original_filename)`: does a row with this
(path, filename) pair already exist? -/
def FilesTable.hasPathFilename (t : FilesTable) (path filename : String) : Bool :=
  t.rows.any fun r => r.original_path == path && r.original_filename == filename

/-- The row built by the `INSERT INTO files (...)` statement of
`migrate_mat_files`: `next_id` is the AUTOINCREMENT key, the blob
reference starts as the placeholder `'pending'` (passed in
`binary_data_path`), and the remaining columns take their schema
defaults (NULL transients, NULL checksum). -/
def FilesTable.newRow (t : FilesTable) (filename path : String)
    (label_dir : Option String) (selected_label : String)
    (voltage current : Option Nat) (datestamp : Option String)
    (binary_data_path : String) (total_samples : Nat) : FileRow :=
  { file_id := t.next_id
    original_filename := filename
    original_path := path
    original_label_directory := label_dir
    selected_label := selected_label
    transient1_index := none
    transient2_index := none
    transient3_index := none
    voltage_level := voltage
    current_level := current
    datestamp := datestamp
    binary_data_path := binary_data_path
    data_checksum := none
    total_samples := total_samples }

/-- `INSERT INTO files (...)` as issued by `migrate_mat_files`:
appends the new row and bumps the AUTOINCREMENT counter, or raises an
`IntegrityError` when the `UNIQUE(original_path, original_filename)`
constraint is violated. -/
def FilesTable.insert (t : FilesTable) (filename path : String)
    (label_dir : Option String) (selected_label : String)
    (voltage current : Option Nat) (datestamp : Option String)
    (binary_data_path : String) (total_samples : Nat) :
    Except String (FilesTable × Nat) :=
  if t.hasPathFilename path filename then
    .error "UNIQUE constraint failed: files.original_path, files.original_filename"
  else
    .ok ({ rows := t.rows ++ [t.newRow filename path label_dir selected_label
             voltage current datestamp binary_data_path total_samples]
           next_id := t.next_id + 1 },
         t.next_id)

/-- `SELECT ... FROM files WHERE file_id = ?` (`get_file_by_id`). -/
def FilesTable.get_file_by_id (t : FilesTable) (file_id : Nat) : Option FileRow :=
  t.rows.find? fun r => r.file_id == file_id

/-- `UPDATE files SET binary_data_path = ?, data_checksum = ? WHERE
file_id = ?` as issued by `migrate_mat_files` after the blob write. -/
def FilesTable.update_binary_path (t : FilesTable) (file_id : Nat)
    (binary_data_path : String) (checksum : Option String) : FilesTable :=
  { t with rows := t.rows.map fun r =>
      if r.file_id == file_id then
        { r with binary_data_path := binary_data_path, data_checksum := checksum }
      else r }

/-- `V3Database.load_file_data(file_id)`: looks up the row, reads the
blob named by its `binary_data_path` from the binary directory, and
splits the two-column payload into `data[:, 0]` (load voltage) and
`data[:, 1]` (source current).  Returns `none` for a missing row or a
missing blob file. -/
def load_file_data (t : FilesTable) (fs : FS) (file_id : Nat) :
    Option (List Int × List Int) :=
  match t.get_file_by_id file_id with
  | none => none
  | some file_info =>
    match fs file_info.binary_data_path with
    | none => none
    | some data => some (data.map Prod.fst, data.map Prod.snd)

/-! ## Connection acquisition inside `V3Database`

`DatabaseConnectionPool.get_connection` is `@contextmanager`-decorated
and `V3Database.get_connection` returns its result directly
(operations.py:105-107).  A `with self.get_connection() as conn:`
block therefore works: entering the context manager runs the
generator body (`pool.get(timeout=...)`, yield, `finally:
self.pool.put(conn)`).  But every operation written as
`conn = self.get_connection()` followed by `conn.cursor()` calls
`cursor()` on the un-entered context-manager object itself: the
attribute lookup raises `AttributeError` before any pool interaction
and before any SQL, so the rest of the method body is dead code. -/

/-- The exception raised by `conn.cursor()` on the un-entered
context-manager object returned by `V3Database.get_connection`
(quotes of the Python message omitted). -/
def attributeErrorMsg : String :=
  "AttributeError: _GeneratorContextManager object has no attribute cursor"

/-- `conn = self.get_connection(); cursor = conn.cursor()` as
actually executed by the ad-hoc operations: the generator body never
ran, nothing was taken from the pool, and the lookup raises. -/
def contextManagerCursor : Except String Unit := .error attributeErrorMsg

/-- The effect of the `UPDATE files SET transient1_index = ?,
transient2_index = ?, transient3_index = ? WHERE file_id = ?`
statement in the body of `update_transient_indices`, binding exactly
the three arguments — omitted (`None`) markers would be written as
NULL, not preserved.  At runtime this statement is never reached (see
`V3Database.update_transient_indices`). -/
def FilesTable.updateTransientsSQL (t : FilesTable) (file_id : Nat)
    (transient1 transient2 transient3 : Option Int) : FilesTable :=
  { t with rows := t.rows.map fun r =>
      if r.file_id == file_id then
        { r with transient1_index := transient1
                 transient2_index := transient2
                 transient3_index := transient3 }
      else r }

/-- `V3Database.update_transient_indices(file_id, transient1=None,
transient2=None, transient3=None)` as actually executed:
`conn.cursor()` (operations.py:185) raises `AttributeError` on every
call, so the UPDATE never runs and the table is unchanged; the
exception propagates to the caller. -/
def V3Database.update_transient_indices (t : FilesTable) (file_id : Nat)
    (transient1 transient2 transient3 : Option Int) : Except String FilesTable :=
  match contextManagerCursor with
  | .error e => .error e
  | .ok _ => .ok (t.updateTransientsSQL file_id transient1 transient2 transient3)

/-! ## The `experiment_status` and `rejections` tables
(`update_experiment_status`, `add_rejection` in operations.py;
`rejections` schema from `create_database_schema` in init_db.py) -/

/-- One row of the `experiment_status` table.  `manual_reviewed` is
stored as the integer `1 if manual_reviewed else 0`. -/
structure StatusRow where
  file_id : Nat
  status : String
  manual_reviewed : Nat
  reviewer_notes : Option String
  reviewed_by : Option String
  classification_confidence : Option Int
  deriving Repr, DecidableEq

/-- One row of the `rejections` audit table. -/
structure RejectionRow where
  rejection_id : Nat
  file_id : Nat
  filename : Option String
  original_path : Option String
  original_label : Option String
  deriving Repr, DecidableEq

/-- The effect of the SQL in the `try` block of
`update_experiment_status`: SELECT for an existing row keyed on
`file_id`; if present, UPDATE it in place, otherwise INSERT a new
row.  At runtime this block is never reached (see
`V3Database.update_experiment_status`); even its target table,
`experiment_status`, is created nowhere in the repository. -/
def upsertStatusSQL (tbl : List StatusRow) (file_id : Nat)
    (status : String) (manual_reviewed : Bool)
    (reviewer_notes reviewer_name : Option String)
    (confidence : Option Int) : List StatusRow :=
  if tbl.any (fun r => r.file_id == file_id) then
    tbl.map fun r =>
      if r.file_id == file_id then
        { r with status := status
                 manual_reviewed := if manual_reviewed then 1 else 0
                 reviewer_notes := reviewer_notes
                 reviewed_by := reviewer_name
                 classification_confidence := confidence }
      else r
  else
    tbl ++ [{ file_id := file_id
              status := status
              manual_reviewed := if manual_reviewed then 1 else 0
              reviewer_notes := reviewer_notes
              reviewed_by := reviewer_name
              classification_confidence := confidence }]

/-- `V3Database.update_experiment_status(file_id, status,
manual_reviewed=True, reviewer_notes=None, reviewer_name=None,
confidence=None)` as actually executed: `cursor = conn.cursor()`
(operations.py:203) sits before the `try` block and raises
`AttributeError` on every call, so no SQL runs, the table is
unchanged, and the exception propagates (the `except`/`finally`
inside the never-entered `try` cannot catch it). -/
def V3Database.update_experiment_status (tbl : List StatusRow) (file_id : Nat)
    (status : String) (manual_reviewed : Bool)
    (reviewer_notes reviewer_name : Option String)
    (confidence : Option Int) : Except String (List StatusRow) :=
  match contextManagerCursor with
  | .error e => .error e
  | .ok _ => .ok (upsertStatusSQL tbl file_id status manual_reviewed
      reviewer_notes reviewer_name confidence)

/-- The tables `add_rejection` could touch. -/
structure DBState where
  experiment_status : List StatusRow
  rejections : List RejectionRow
  deriving Repr, DecidableEq

/-- `V3Database.add_rejection(file_id)` — "Legacy method - now uses
status table": it contains no INSERT into `rejections` and merely
returns `self.update_experiment_status(file_id, 'reject',
manual_reviewed=True, reviewer_notes='Rejected via legacy method')`;
the `AttributeError` raised there propagates, so the call writes
nothing to either table. -/
def DBState.add_rejection (db : DBState) (file_id : Nat) : Except String DBState :=
  match V3Database.update_experiment_status db.experiment_status file_id "reject"
      true (some "Rejected via legacy method") none none with
  | .error e => .error e
  | .ok tbl => .ok { db with experiment_status := tbl }

/-! ## Connection pool (`DatabaseConnectionPool` in operations.py)

`_initialize_pool` fills a `Queue(maxsize=pool_size)` with
`pool_size` connections.  `get_connection` does
`self.pool.get(timeout=self.timeout)`; a queue-empty timeout raises
`Exception("Database connection pool exhausted")`, and the `finally`
block puts an acquired connection back.  The pool is modelled by the
number of free (queued) connections and the number of handles
currently held by callers; concurrent callers are modelled by
arbitrary interleavings of acquire/release steps. -/

/-- Pool state: connections sitting in the queue vs. handles held. -/
structure PoolState where
  free : Nat
  held : Nat
  deriving Repr, DecidableEq

/-- The error message raised on a queue-empty timeout. -/
def poolExhaustedMsg : String := "Database connection pool exhausted"

/-- `self.pool.get(timeout=...)`: succeeds exactly when a connection
is queued; on an empty queue the timeout elapses and the `Empty`
handler raises the pool-exhausted exception.  On success the handle
moves from the queue to the caller. -/
def PoolState.acquire (s : PoolState) : Except String PoolState :=
  if 0 < s.free then .ok { free := s.free - 1, held := s.held + 1 }
  else .error poolExhaustedMsg

/-- `self.pool.put(conn)` in the `finally` block: the held handle
returns to the queue. -/
def PoolState.release (s : PoolState) : PoolState :=
  { free := s.free + 1, held := s.held - 1 }

/-- One interleaving step by some concurrent caller: a successful
acquire, a timed-out acquire (which leaves the state unchanged — the
`Empty` handler acquires nothing), or a release of a held handle. -/
inductive PoolStep : PoolState → PoolState → Prop
  | acquireOk {s s' : PoolState} : s.acquire = .ok s' → PoolStep s s'
  | acquireTimeout {s : PoolState} : s.acquire = .error poolExhaustedMsg → PoolStep s s
  | release {s : PoolState} : 0 < s.held → PoolStep s s.release

/-- States reachable from a freshly initialized pool of capacity `n`
under any interleaving of concurrent acquire/release operations. -/
inductive PoolReachable (n : Nat) : PoolState → Prop
  | init : PoolReachable n { free := n, held := 0 }
  | step {s s' : PoolState} : PoolReachable n s → PoolStep s s' → PoolReachable n s'

/-! ### Connection discipline of the `V3Database` operations

Each repository operation handles its connection in one of two styles
found in the source:

* scoped (`with self.get_connection() as conn: ...`): the pool
  context manager's `finally` puts the connection back;
* ad hoc (`conn = self.get_connection()` … `conn.close()`): the
  handle is closed at the end instead of being put back into the
  queue, so the pool permanently loses one pooled connection.
-/

/-- The `V3Database` operations, by name. -/
inductive RepoOp
  | get_all_files
  | get_file_by_id
  | update_file_label
  | update_transient_indices
  | update_experiment_status
  | get_experiment_status
  | get_files_by_status
  | get_status_summary
  | get_rejected_files
  | get_label_statistics
  | search_files
  deriving Repr, DecidableEq

/-- Which operations wrap their connection in
`with self.get_connection() as conn:` (scoped acquisition).  Read off
the bodies in operations.py: only `get_all_files`, `get_file_by_id`
and `update_file_label` do; every other operation assigns
`conn = self.get_connection()` and later calls `conn.close()`. -/
def RepoOp.usesScopedAcquisition : RepoOp → Bool
  | .get_all_files => true
  | .get_file_by_id => true
  | .update_file_label => true
  | .update_transient_indices => false
  | .update_experiment_status => false
  | .get_experiment_status => false
  | .get_files_by_status => false
  | .get_status_summary => false
  | .get_rejected_files => false
  | .get_label_statistics => false
  | .search_files => false

/-- The connection-handling outcome of one repository operation:
whether its body (the SQL) ran or an exception propagated, and the
pool state after the call. -/
structure ConnOutcome where
  result : Except String Unit
  pool : PoolState
  deriving Repr

/-- What one `V3Database` operation does with the pool.  A scoped
operation enters the context manager (the generator body runs
`pool.get`), executes its SQL, and the `finally` puts the handle
back — or, on a queue-empty timeout, the pool-exhausted exception
propagates with the pool unchanged.  An ad-hoc operation never enters
the context manager: `conn.cursor()` raises `AttributeError` before
any pool interaction, so no SQL runs and the pool is untouched. -/
def RepoOp.connBehavior (op : RepoOp) (s : PoolState) : ConnOutcome :=
  if op.usesScopedAcquisition then
    match s.acquire with
    | .ok s' => { result := .ok (), pool := s'.release }
    | .error e => { result := .error e, pool := s }
  else
    { result := .error attributeErrorMsg, pool := s }

/-! ## Channel-file loading (`load_channel_data` in init_db.py) -/

/-- One entry of a loaded `.mat` dictionary: its numpy dtype kind
character and its flattened contents (numeric view; the size check
uses `value.size`, the length of the flattened contents). -/
structure MatEntry where
  dtypeKind : Char
  values : List Int
  deriving Repr, DecidableEq

/-- `value.size` of a `.mat` dictionary entry. -/
def MatEntry.size (v : MatEntry) : Nat := v.values.length

/-- `value.dtype.kind in 'biufc'`: boolean, (signed/unsigned) integer,
float or complex. -/
def MatEntry.isNumeric (v : MatEntry) : Bool :=
  v.dtypeKind == 'b' || v.dtypeKind == 'i' || v.dtypeKind == 'u' ||
  v.dtypeKind == 'f' || v.dtypeKind == 'c'

/-- A loaded `.mat` file: key ↦ entry association list. -/
abbrev MatFile : Type := List (String × MatEntry)

/-- `max(data_arrays, key=lambda x: x[1].size)`: Python's `max`
returns the first element attaining the maximum, so a later element
replaces the best only when strictly larger. -/
def maxBySize (arrays : List (String × MatEntry)) : Option (String × MatEntry) :=
  arrays.foldl
    (fun best x =>
      match best with
      | none => some x
      | some b => if x.2.size > b.2.size then some x else some b)
    none

/-- The 2.5 M sample cap (`max_samples = int(2.5e6)`). -/
def maxSamples : Nat := 2500000

/-- `load_channel_data(filepath)` applied to an already-parsed `.mat`
dictionary: prefer the `'data'` key; otherwise fall back to the
largest numeric array among entries whose key does not start with `_`,
whose dtype kind is in `'biufc'` and whose size is strictly greater
than 1000; fail (`None`) when no entry qualifies.  The resulting flat
sequence is truncated to 2.5 M samples. -/
def load_channel_data (mat : MatFile) : Option (List Int) :=
  let data? :=
    match mat.find? (fun kv => kv.1 == "data") with
    | some kv => some kv.2.values
    | none =>
      let data_arrays := mat.filter fun (kv : String × MatEntry) =>
        !kv.1.startsWith "_" && kv.2.isNumeric && kv.2.size > 1000
      match maxBySize data_arrays with
      | none => none
      | some kv => some kv.2.values
  match data? with
  | none => none
  | some data => some (if data.length > maxSamples then data.take maxSamples else data)

/-! ## Directory qualification (the walk in `migrate_mat_files`)

For each directory the loop scans its file list, remembering the last
file ending in `_ch1.mat` and — in an `elif` — the last file ending in
`_ch4.mat`; the directory is kept when both were found.  Python's
`str.endswith` is modelled on the filename's character list. -/

/-- `filename.endswith(suffix)`. -/
def endsWith (f suffix : String) : Bool := suffix.data.isSuffixOf f.data

/-- The scan `for file in files: if file.endswith('_ch1.mat'):
ch1_file = file; elif file.endswith('_ch4.mat'): ch4_file = file`. -/
def findChannelFiles (files : List String) : Option String × Option String :=
  files.foldl
    (fun acc file =>
      if endsWith file "_ch1.mat" then (some file, acc.2)
      else if endsWith file "_ch4.mat" then (acc.1, some file)
      else acc)
    (none, none)

/-- `if ch1_file and ch4_file:` — the directory is kept as an
experiment exactly when the scan found both channel files. -/
def qualifiesAsExperiment (files : List String) : Bool :=
  (findChannelFiles files).1.isSome && (findChannelFiles files).2.isSome

/-! ## The migration loop (`migrate_mat_files` in init_db.py)

One iteration per experiment directory.  Each directory carries the
results of loading its two channel files (`load_channel_data` applied
to the ch1/ch4 `.mat` files) plus the metadata extracted from its
path.  Every failure path increments `error_count` and falls through
to the next directory: a failed channel load `continue`s, a failed
insert raises and is caught by the per-directory `except`, and a
failed blob write takes the `else` branch. -/

/-- One qualifying experiment directory, with its channel data as
returned by `load_channel_data` on its ch1/ch4 files. -/
structure ExperimentDir where
  experiment_name : String
  experiment_dir : String
  label_dir : Option String
  selected_label : String
  voltage : Option Nat
  current : Option Nat
  datestamp : Option String
  load_voltage_data : Option (List Int)
  source_current_data : Option (List Int)
  deriving Repr

/-- The mutable state of the migration run. -/
structure MigState where
  files : FilesTable
  fs : FS
  processed_count : Nat
  error_count : Nat

/-- The body of the per-directory loop in `migrate_mat_files`.  The
MD5 checksum string returned alongside the blob filename is not
modelled (no verified property mentions its value), so the UPDATE
stores an absent checksum. -/
def processDir (st : MigState) (d : ExperimentDir) : MigState :=
  match d.load_voltage_data, d.source_current_data with
  | some lv, some sc =>
    let min_len := min lv.length sc.length
    let lv := lv.take min_len
    let sc := sc.take min_len
    match st.files.insert d.experiment_name d.experiment_dir d.label_dir
        d.selected_label d.voltage d.current d.datestamp "pending" min_len with
    | .error _ => { st with error_count := st.error_count + 1 }
    | .ok (files', file_id) =>
      match save_binary_data (some lv) (some sc) file_id st.fs with
      | (some binary_filename, fs') =>
        { files := files'.update_binary_path file_id binary_filename none
          fs := fs'
          processed_count := st.processed_count + 1
          error_count := st.error_count }
      | (none, fs') =>
        { st with files := files', fs := fs', error_count := st.error_count + 1 }
  | _, _ => { st with error_count := st.error_count + 1 }

/-- The whole migration loop over the qualifying directories. -/
def migrateLoop (st : MigState) (dirs : List ExperimentDir) : MigState :=
  dirs.foldl processDir st

/-! ## Concrete instances used to exercise the definitions -/

/-- An empty binary-data directory. -/
def emptyFS : FS := fun _ => none

/-- A catalog row whose blob reference is the deterministic filename
for identifier 1 (as `migrate_mat_files` leaves it after the blob
write). -/
def sampleRow : FileRow :=
  { file_id := 1
    original_filename := "exp"
    original_path := "/data/exp"
    original_label_directory := none
    selected_label := "unknown"
    transient1_index := none
    transient2_index := none
    transient3_index := none
    voltage_level := none
    current_level := none
    datestamp := none
    binary_data_path := binaryFilename 1
    data_checksum := none
    total_samples := 2 }

/-- A one-row catalog. -/
def sampleTable : FilesTable := { rows := [sampleRow], next_id := 2 }

/-- A database with empty status and rejection tables. -/
def emptyDB : DBState := { experiment_status := [], rejections := [] }

/-- The migration's starting state: fresh schema, empty blob dir. -/
def migInit : MigState :=
  { files := { rows := [], next_id := 1 }
    fs := emptyFS
    processed_count := 0
    error_count := 0 }

/-- A valid experiment directory (distinct path per index, both
channels loadable). -/
def validDir (i : Nat) : ExperimentDir :=
  { experiment_name := "exp" ++ toString i
    experiment_dir := "/raw/exp" ++ toString i
    label_dir := some "steady_state"
    selected_label := "steady_state"
    voltage := some 350
    current := some 1976
    datestamp := some "20240101"
    load_voltage_data := some [1, 2, 3]
    source_current_data := some [4, 5, 6] }

/-- A directory whose channel-4 capture could not be loaded
(`load_channel_data` returned `None`). -/
def badDir : ExperimentDir :=
  { experiment_name := "broken"
    experiment_dir := "/raw/broken"
    label_dir := none
    selected_label := "unknown"
    voltage := none
    current := none
    datestamp := none
    load_voltage_data := some [1, 2, 3]
    source_current_data := none }

/-- Ten valid directories followed by one broken one. -/
def scenarioDirs : List ExperimentDir :=
  (List.range 10).map validDir ++ [badDir]

/-- A directory listing with two channel-1 files and one channel-4
file. -/
def twoCh1Listing : List String := ["a_ch1.mat", "b_ch1.mat", "c_ch4.mat"]

/-- A `.mat` dictionary without a `'data'` key: a large non-numeric
(unicode-dtype) entry and a numeric entry of only 500 samples. -/
def smallMat : MatFile :=
  [("meta", { dtypeKind := 'U', values := List.replicate 2000 0 }),
   ("x", { dtypeKind := 'f', values := List.replicate 500 0 })]

/-- An experiment directory whose channel-1 load came from
`smallMat`. -/
def smallMatDir : ExperimentDir :=
  { experiment_name := "small"
    experiment_dir := "/raw/small"
    label_dir := none
    selected_label := "unknown"
    voltage := none
    current := none
    datestamp := none
    load_voltage_data := load_channel_data smallMat
    source_current_data := some [1, 2, 3] }

/-! # Theorems -/

/-- C1: for every identifier `id` and equal-length load-voltage /
source-current sequences `A`, `B`, saving the blob for `id`
(`save_binary_data`) and then loading it by `id`
(`V3Database.load_file_data`, given the catalog row's blob reference
is the deterministic filename for `id`, as the migration leaves it)
returns exactly `(A, B)`: column 0 holds the load voltage and column 1
the source current, with the same column order at ingestion and
retrieval. -/
theorem save_load_roundtrip (t : FilesTable) (fs : FS) (id : Nat)
    (A B : List Int) (r : FileRow)
    (hlen : A.length = B.length)
    (hget : t.get_file_by_id id = some r)
    (hpath : r.binary_data_path = binaryFilename id) :
    load_file_data t (save_binary_data (some A) (some B) id fs).2 id
      = some (A, B) := by
  have h1 : (A.zip B).map Prod.fst = A := List.map_fst_zip A B (le_of_eq hlen)
  have h2 : (A.zip B).map Prod.snd = B := List.map_snd_zip A B (le_of_eq hlen.symm)
  simp only [load_file_data, save_binary_data, hget, hpath, FS.write]
  simp [h1, h2]

/-- Witness for C1: the round trip at `id = 1`, `A = [1, 2]`,
`B = [3, 4]` against a one-row catalog and an empty blob directory. -/
theorem save_load_roundtrip_witness :
    load_file_data sampleTable
      (save_binary_data (some [1, 2]) (some [3, 4]) 1 emptyFS).2 1
      = some ([1, 2], [3, 4]) :=
  save_load_roundtrip sampleTable emptyFS 1 [1, 2] [3, 4] sampleRow rfl rfl rfl

/-- C3: inserting a File row for a (source path, filename) pair not
yet in the table succeeds, and a second insert with the identical
(path, filename) pair — whatever the other column values — fails with
the UNIQUE-constraint error instead of creating a duplicate row. -/
theorem file_insert_unique (t : FilesTable) (filename path : String)
    (l : Option String) (sl : String) (v c : Option Nat) (d : Option String)
    (b : String) (n : Nat)
    (l' : Option String) (sl' : String) (v' c' : Option Nat) (d' : Option String)
    (b' : String) (n' : Nat)
    (h : t.hasPathFilename path filename = false) :
    ∃ t' id, t.insert filename path l sl v c d b n = .ok (t', id) ∧
      t'.insert filename path l' sl' v' c' d' b' n' =
        .error "UNIQUE constraint failed: files.original_path, files.original_filename" := by
  refine ⟨{ rows := t.rows ++ [t.newRow filename path l sl v c d b n]
            next_id := t.next_id + 1 }, t.next_id, ?_, ?_⟩
  · simp [FilesTable.insert, h]
  · simp [FilesTable.insert, FilesTable.hasPathFilename, FilesTable.newRow,
      List.any_append]

/-- Witness for C3: the two inserts at a concrete fresh table. -/
theorem file_insert_unique_witness :
    ∃ t' id,
      FilesTable.insert { rows := [], next_id := 1 } "exp" "/raw/exp"
          none "unknown" none none none "pending" 3 = .ok (t', id) ∧
      t'.insert "exp" "/raw/exp" none "arc" (some 350) none none "pending" 5 =
        .error "UNIQUE constraint failed: files.original_path, files.original_filename" :=
  file_insert_unique { rows := [], next_id := 1 } "exp" "/raw/exp"
    none "unknown" none none none "pending" 3
    none "arc" (some 350) none none "pending" 5 rfl

/-- Finding a row by key after a keyed in-place update: the update
function preserves `file_id`, so lookup finds the updated image of
the row it would have found before. -/
theorem find?_map_transient_update (rows : List FileRow) (id : Nat)
    (t1 t2 t3 : Option Int) :
    (rows.map fun r =>
        if r.file_id == id then
          { r with transient1_index := t1
                   transient2_index := t2
                   transient3_index := t3 }
        else r).find? (fun r => r.file_id == id)
      = (rows.find? (fun r => r.file_id == id)).map fun r =>
          { r with transient1_index := t1
                   transient2_index := t2
                   transient3_index := t3 } := by
  induction rows with
  | nil => rfl
  | cons r rs ih =>
    by_cases h : (r.file_id == id) = true
    · have hupd : (({ r with transient1_index := t1, transient2_index := t2, transient3_index := t3 } : FileRow).file_id == id) = true := h
      rw [List.map_cons, if_pos h,
        List.find?_cons_of_pos (p := fun (x : FileRow) => x.file_id == id) _ hupd,
        List.find?_cons_of_pos (p := fun (x : FileRow) => x.file_id == id) _ h]
      rfl
    · rw [List.map_cons, if_neg h,
        List.find?_cons_of_neg (p := fun (x : FileRow) => x.file_id == id) _ h,
        List.find?_cons_of_neg (p := fun (x : FileRow) => x.file_id == id) _ h, ih]

/-- C5: the claimed destructive write is exactly what the UPDATE in
the method body would do — `updateTransientsSQL` overwrites all three
markers with its arguments, so an omitted (`None`) marker would read
back as absent — but `update_transient_indices` as executed raises
`AttributeError` at `conn.cursor()` before the UPDATE on every call:
the files table is never touched and prior marker values persist. -/
theorem update_transients_bug (t : FilesTable) (id : Nat)
    (t1 t2 t3 : Option Int) :
    V3Database.update_transient_indices t id t1 t2 t3 = .error attributeErrorMsg ∧
    (t.updateTransientsSQL id t1 t2 t3).get_file_by_id id
      = (t.get_file_by_id id).map fun r =>
          { r with transient1_index := t1
                   transient2_index := t2
                   transient3_index := t3 } :=
  ⟨rfl, find?_map_transient_update t.rows id t1 t2 t3⟩

/-- Pool invariant: in every reachable state the queued and held
handles together are exactly the initial capacity. -/
theorem pool_reachable_sum {n : Nat} {s : PoolState} (h : PoolReachable n s) :
    s.free + s.held = n := by
  induction h with
  | init => rfl
  | step _ hstep ih =>
    cases hstep with
    | acquireOk hacq =>
      unfold PoolState.acquire at hacq
      split at hacq
      · injection hacq with heq
        subst heq
        simp only [PoolState.free, PoolState.held] at *
        omega
      · exact Except.noConfusion hacq
    | acquireTimeout _ => exact ih
    | release hpos =>
      unfold PoolState.release
      simp only [PoolState.free, PoolState.held] at *
      omega

/-- C2: for every interleaving of concurrent acquire/release
operations on a pool of capacity `n`, the number of simultaneously
held handles never exceeds `n`; and when all `n` handles are held a
further acquire does not hand out an (n+1)-th handle but fails with
the pool-exhausted error (the `Queue.get` timeout path raising
`Exception("Database connection pool exhausted")`). -/
theorem pool_bound (n : Nat) (s : PoolState) (h : PoolReachable n s) :
    s.held ≤ n ∧ (s.held = n → s.acquire = .error poolExhaustedMsg) := by
  have hsum := pool_reachable_sum h
  refine ⟨by omega, fun hfull => ?_⟩
  have hfree : s.free = 0 := by omega
  unfold PoolState.acquire
  rw [hfree]
  rfl

/-- Witness for C2: capacity 1, one successful acquire; the state
with the single handle held is reachable, holds no more than 1
handle, and a further acquire reports exhaustion. -/
theorem pool_bound_witness :
    ({ free := 0, held := 1 } : PoolState).held ≤ 1 ∧
      ({ free := 0, held := 1 } : PoolState).acquire = .error poolExhaustedMsg := by
  have hr : PoolReachable 1 { free := 0, held := 1 } :=
    PoolReachable.step PoolReachable.init (PoolStep.acquireOk rfl)
  exact ⟨(pool_bound 1 _ hr).1, (pool_bound 1 _ hr).2 rfl⟩

/-- The SQL upsert in the dead method body creates a row exactly when
none with the key exists; otherwise the keyed row count is
unchanged. -/
theorem upsert_countP (tbl : List StatusRow) (id : Nat) (st : String)
    (mr : Bool) (nt rv : Option String) (cf : Option Int) :
    (upsertStatusSQL tbl id st mr nt rv cf).countP
        (fun r => r.file_id == id)
      = if tbl.any (fun r => r.file_id == id) then
          tbl.countP (fun r => r.file_id == id)
        else tbl.countP (fun r => r.file_id == id) + 1 := by
  unfold upsertStatusSQL
  by_cases h : tbl.any (fun r => r.file_id == id)
  · rw [if_pos h, if_pos h, List.countP_map]
    apply List.countP_congr
    intro r _
    by_cases hr : (r.file_id == id) = true
    · simp only [Function.comp, hr, if_pos]
    · simp only [Function.comp, hr, if_neg, Bool.not_eq_true] at *
  · rw [if_neg h, if_neg h, List.countP_append]
    simp [List.countP_cons]

/-- C4: the claim describes the SQL in the method body — a genuine
keyed upsert (insert when the id is absent, update in place when
present, never a second row) — but `update_experiment_status` as
executed raises `AttributeError` at `conn.cursor()` on every call
(the statement sits before the `try`, so nothing catches it): no row
is ever inserted or updated, and after any number of calls for an
absent id the table still has zero rows for it, not one. -/
theorem upsert_status_bug (tbl : List StatusRow) (id : Nat) (st : String)
    (mr : Bool) (nt rv : Option String) (cf : Option Int) :
    V3Database.update_experiment_status tbl id st mr nt rv cf
        = .error attributeErrorMsg ∧
    (upsertStatusSQL tbl id st mr nt rv cf).countP (fun r => r.file_id == id)
      = (if tbl.any (fun r => r.file_id == id) then
          tbl.countP (fun r => r.file_id == id)
        else tbl.countP (fun r => r.file_id == id) + 1) :=
  ⟨rfl, upsert_countP tbl id st mr nt rv cf⟩

/-- Counterexample to C6: `add_rejection 1` against empty tables
neither appends a `rejections` row nor sets any status record — the
delegated `update_experiment_status` raises `AttributeError` before
any SQL, so the call propagates the exception and no updated database
is produced at all. -/
theorem add_rejection_raises :
    DBState.add_rejection { experiment_status := [], rejections := [] } 1
      = .error attributeErrorMsg := rfl

/-- C6 amended: `add_rejection id` is a legacy delegate to the status
upsert (status `'reject'`, note `'Rejected via legacy method'`) with
no `rejections`-table INSERT of its own; and since the delegated
upsert raises `AttributeError` at `conn.cursor()` before any SQL, the
call writes nothing to either table and propagates the exception. -/
theorem add_rejection_legacy_noop (db : DBState) (id : Nat) :
    db.add_rejection id = .error attributeErrorMsg ∧
    db.add_rejection id
      = (V3Database.update_experiment_status db.experiment_status id "reject" true
          (some "Rejected via legacy method") none none).map
          (fun tbl => { db with experiment_status := tbl }) :=
  ⟨rfl, rfl⟩

/-- Every migration iteration ticks exactly one of the two counters:
processed on success, error on any per-directory failure. -/
theorem processDir_tick (st : MigState) (d : ExperimentDir) :
    (processDir st d).processed_count + (processDir st d).error_count
      = st.processed_count + st.error_count + 1 := by
  unfold processDir
  cases hlv : d.load_voltage_data with
  | none => rfl
  | some lv =>
    cases hsc : d.source_current_data with
    | none => rfl
    | some sc =>
      rcases hins : FilesTable.insert st.files d.experiment_name d.experiment_dir
          d.label_dir d.selected_label d.voltage d.current d.datestamp "pending"
          (min lv.length sc.length) with e | ⟨files', fid⟩
      · simp only [hins]
        omega
      · simp only [hins, save_binary_data]
        omega

/-- C7: the migration run never aborts on a bad item — over any
directory list the processed and error counters together advance by
exactly the number of directories — and on the concrete
10-valid-plus-1-broken source tree it reports 10 processed, 1 error,
and the catalog gains exactly 10 File rows. -/
theorem migration_resilient :
    (∀ (st : MigState) (dirs : List ExperimentDir),
        (migrateLoop st dirs).processed_count + (migrateLoop st dirs).error_count
          = st.processed_count + st.error_count + dirs.length) ∧
      (migrateLoop migInit scenarioDirs).processed_count = 10 ∧
      (migrateLoop migInit scenarioDirs).error_count = 1 ∧
      (migrateLoop migInit scenarioDirs).files.rows.length = 10 := by
  refine ⟨?_, by decide, by decide, by decide⟩
  intro st dirs
  induction dirs generalizing st with
  | nil => rfl
  | cons d ds ih =>
    have h1 := ih (processDir st d)
    have h2 := processDir_tick st d
    show (migrateLoop (processDir st d) ds).processed_count
        + (migrateLoop (processDir st d) ds).error_count
      = st.processed_count + st.error_count + (d :: ds).length
    rw [h1, List.length_cons]
    omega

/-- Counterexample to C8: a directory listing with two channel-1
files (and one channel-4 file) is accepted by the walk, although the
claim's "exactly one match per channel" condition would skip it. -/
theorem qualifies_with_two_ch1 :
    qualifiesAsExperiment twoCh1Listing = true ∧
      twoCh1Listing.countP (fun f => endsWith f "_ch1.mat") = 2 := by decide

/-- The first component of the channel scan is set iff some file ends
in `_ch1.mat` (or it was already set). -/
theorem chanScan_fst (files : List String) (acc : Option String × Option String) :
    (files.foldl (fun acc file =>
        if endsWith file "_ch1.mat" then (some file, acc.2)
        else if endsWith file "_ch4.mat" then (acc.1, some file)
        else acc) acc).1.isSome
      = (acc.1.isSome || files.any (fun f => endsWith f "_ch1.mat")) := by
  induction files generalizing acc with
  | nil => simp
  | cons f fs ih =>
    by_cases h1 : endsWith f "_ch1.mat" = true
    · simp [h1, ih]
    · by_cases h4 : endsWith f "_ch4.mat" = true
      · simp [h1, h4, ih]
      · simp [h1, h4, ih]

/-- The second component of the channel scan is set iff some file
ends in `_ch4.mat` without ending in `_ch1.mat` (the `elif`), or it
was already set. -/
theorem chanScan_snd (files : List String) (acc : Option String × Option String) :
    (files.foldl (fun acc file =>
        if endsWith file "_ch1.mat" then (some file, acc.2)
        else if endsWith file "_ch4.mat" then (acc.1, some file)
        else acc) acc).2.isSome
      = (acc.2.isSome ||
          files.any (fun f => !endsWith f "_ch1.mat" && endsWith f "_ch4.mat")) := by
  induction files generalizing acc with
  | nil => simp
  | cons f fs ih =>
    by_cases h1 : endsWith f "_ch1.mat" = true
    · simp [h1, ih]
    · by_cases h4 : endsWith f "_ch4.mat" = true
      · simp [h1, h4, ih]
      · simp [h1, h4, ih]

/-- No filename ends in both `_ch1.mat` and `_ch4.mat`: equal-length
suffixes of the same string coincide, and the two suffixes differ. -/
theorem ch1_not_ch4 (f : String) (h : endsWith f "_ch1.mat" = true) :
    endsWith f "_ch4.mat" = false := by
  by_contra hne
  rw [Bool.not_eq_false] at hne
  have h1 : "_ch1.mat".data <:+ f.data := List.isSuffixOf_iff_suffix.mp h
  have h4 : "_ch4.mat".data <:+ f.data := List.isSuffixOf_iff_suffix.mp hne
  obtain ⟨a, ha⟩ := h1
  obtain ⟨b, hb⟩ := h4
  have hab : a ++ "_ch1.mat".data = b ++ "_ch4.mat".data := ha.trans hb.symm
  have hsuf : ("_ch1.mat".data).length = ("_ch4.mat".data).length := by decide
  have hlen : a.length = b.length := by
    have hl := congrArg List.length hab
    rw [List.length_append, List.length_append] at hl
    omega
  exact absurd (List.append_inj hab hlen).2 (by decide)

/-- A file ending in `_ch4.mat` never takes the `_ch1.mat` branch, so
the `elif` guard is equivalent to the plain `_ch4.mat` test. -/
theorem any_elif_ch4 (files : List String) :
    files.any (fun f => !endsWith f "_ch1.mat" && endsWith f "_ch4.mat")
      = files.any (fun f => endsWith f "_ch4.mat") := by
  induction files with
  | nil => rfl
  | cons f fs ih =>
    simp only [List.any_cons, ih]
    by_cases h4 : endsWith f "_ch4.mat" = true
    · have h1 : endsWith f "_ch1.mat" = false := by
        cases hc : endsWith f "_ch1.mat"
        · rfl
        · rw [ch1_not_ch4 f hc] at h4
          exact absurd h4 (by simp)
      rw [h1, h4]
      rfl
    · rw [Bool.not_eq_true] at h4
      rw [h4]
      simp

/-- C8 amended: a directory qualifies as an experiment iff it
contains at least one file ending in `_ch1.mat` and at least one
ending in `_ch4.mat` (when several match, the last one listed is
used); directories with several matches per channel still qualify. -/
theorem qualifies_iff_both_channels (files : List String) :
    qualifiesAsExperiment files
      = (files.any (fun f => endsWith f "_ch1.mat") &&
          files.any (fun f => endsWith f "_ch4.mat")) := by
  unfold qualifiesAsExperiment findChannelFiles
  rw [chanScan_fst, chanScan_snd, any_elif_ch4]
  simp

/-- Counterexample to C9: `update_transient_indices` performs no
scoped pool acquisition at all — at a full pool of 10 it raises
`AttributeError` at `conn.cursor()` without acquiring a handle,
running any SQL, or touching the pool, so not every repository
operation routes through acquire-operate-release. -/
theorem update_transients_no_acquisition :
    RepoOp.connBehavior .update_transient_indices { free := 10, held := 0 }
        = { result := .error attributeErrorMsg, pool := { free := 10, held := 0 } } ∧
      RepoOp.usesScopedAcquisition .update_transient_indices = false :=
  ⟨rfl, rfl⟩

/-- C9 amended: only `get_all_files`, `get_file_by_id` and
`update_file_label` route through a scoped pool acquisition — they
acquire, operate and return the handle (or propagate the
pool-exhausted error with the pool unchanged when the queue is
empty); every other operation never acquires a pool handle at all:
`conn.cursor()` on the un-entered context-manager object raises
`AttributeError` before any pool interaction or SQL, leaving the pool
unchanged. -/
theorem connection_discipline_split :
    (∀ (op : RepoOp) (f h : Nat), op.usesScopedAcquisition = true →
        op.connBehavior { free := f + 1, held := h }
          = { result := .ok (), pool := { free := f + 1, held := h } }) ∧
    (∀ (op : RepoOp) (s : PoolState), op.usesScopedAcquisition = false →
        op.connBehavior s = { result := .error attributeErrorMsg, pool := s }) ∧
    (∀ (op : RepoOp) (h : Nat), op.usesScopedAcquisition = true →
        op.connBehavior { free := 0, held := h }
          = { result := .error poolExhaustedMsg, pool := { free := 0, held := h } }) := by
  refine ⟨?_, ?_, ?_⟩
  · intro op f h hs
    simp [RepoOp.connBehavior, PoolState.acquire, PoolState.release, hs]
  · intro op s hs
    simp [RepoOp.connBehavior, hs]
  · intro op h hs
    simp [RepoOp.connBehavior, PoolState.acquire, hs]

/-- Witness for C9's amended claim: a scoped read restores the pool
and succeeds, an ad-hoc operation raises with the pool untouched, and
a scoped write on an empty queue propagates pool exhaustion. -/
theorem connection_discipline_split_witness :
    RepoOp.connBehavior .get_all_files { free := 5, held := 0 }
        = { result := .ok (), pool := { free := 5, held := 0 } } ∧
      RepoOp.connBehavior .search_files { free := 5, held := 0 }
        = { result := .error attributeErrorMsg, pool := { free := 5, held := 0 } } ∧
      RepoOp.connBehavior .update_file_label { free := 0, held := 2 }
        = { result := .error poolExhaustedMsg, pool := { free := 0, held := 2 } } :=
  ⟨connection_discipline_split.1 .get_all_files 4 0 rfl,
   connection_discipline_split.2.1 .search_files { free := 5, held := 0 } rfl,
   connection_discipline_split.2.2 .update_file_label 2 rfl⟩

/-- C10: the largest-numeric-array fallback of `load_channel_data`
considers only numeric-dtype arrays with strictly more than 1000
elements: a capture dictionary without a `'data'` key whose numeric
arrays all have at most 1000 elements loads as `None` (even when a
numeric array is present), and a directory whose channel load
returned `None` is counted as an error and not processed. -/
theorem load_channel_small_numeric_fails (mat : MatFile)
    (hdata : mat.find? (fun kv => kv.1 == "data") = none)
    (hsmall : ∀ kv ∈ mat, kv.2.isNumeric = true → kv.2.size ≤ 1000) :
    load_channel_data mat = none ∧
    ∀ (st : MigState) (d : ExperimentDir),
      d.load_voltage_data = load_channel_data mat →
      (processDir st d).error_count = st.error_count + 1 ∧
      (processDir st d).processed_count = st.processed_count ∧
      (processDir st d).files = st.files := by
  have hfil : mat.filter (fun (kv : String × MatEntry) =>
      !kv.1.startsWith "_" && kv.2.isNumeric && kv.2.size > 1000) = [] := by
    rw [List.filter_eq_nil_iff]
    intro kv hm hp
    simp only [Bool.and_eq_true, decide_eq_true_eq] at hp
    have := hsmall kv hm hp.1.2
    omega
  have hnone : load_channel_data mat = none := by
    unfold load_channel_data
    rw [hdata, hfil]
    rfl
  refine ⟨hnone, ?_⟩
  intro st d hd
  rw [hnone] at hd
  unfold processDir
  rw [hd]
  exact ⟨rfl, rfl, rfl⟩

set_option maxRecDepth 100000 in
/-- Witness for C10: a dictionary with a large unicode-dtype entry
and a 500-element float entry, no `'data'` key: the load fails and
the directory is booked as one error. -/
theorem load_channel_small_numeric_fails_witness :
    load_channel_data smallMat = none ∧
      (smallMat.any fun kv => kv.2.isNumeric) = true ∧
      (processDir migInit smallMatDir).error_count = 1 := by
  have h := load_channel_small_numeric_fails smallMat rfl (by decide)
  exact ⟨h.1, by decide, (h.2 migInit smallMatDir rfl).1⟩

end V3DB
